import Mathlib

/-!
Shallow embedding of `src/electionguard/key_ceremony_mediator.py`.

The mediator class is translated method by method into pure functions over a
`KeyCeremonyMediator` state record.  The `key_ceremony` module it imports
(record types, the `GuardianDataStore` keyed store and the
`combine_election_public_keys` combiner) is not part of the sources, so those
are modelled from the specification, as marked on each definition.
Python methods that mutate `self` become functions returning the new state;
a method that can raise (`list.remove`) returns `Except`.
-/

/-- Modelled from the spec: `GuardianId` from the missing `key_ceremony`
module — an opaque comparable identifier for one guardian. -/
abbrev GuardianId := String

/-- Modelled from the spec: `GuardianPair` from the missing `key_ceremony`
module — a directed pair owner→designated used as a store key. -/
structure GuardianPair where
  owner_id : GuardianId
  designated_id : GuardianId
deriving DecidableEq

/-- Modelled from the spec: `CeremonyDetails` from the missing `key_ceremony`
module — participant count `n` and quorum `k`. -/
structure CeremonyDetails where
  number_of_guardians : Nat
  quorum : Nat
deriving DecidableEq

/-- Modelled from the spec: `AuxiliaryPublicKey` from the missing
`key_ceremony` module; the key material is abstracted as a natural number. -/
structure AuxiliaryPublicKey where
  owner_id : GuardianId
  sequence_order : Nat
  key : Nat
deriving DecidableEq

/-- Modelled from the spec: `ElectionPublicKey` from the missing
`key_ceremony` module; proof and key material abstracted as naturals. -/
structure ElectionPublicKey where
  owner_id : GuardianId
  proof : Nat
  key : Nat
deriving DecidableEq

/-- Modelled from the spec: `ElectionPartialKeyBackup` from the missing
`key_ceremony` module — one guardian's share addressed to another. -/
structure ElectionPartialKeyBackup where
  owner_id : GuardianId
  designated_id : GuardianId
  encrypted_value : Nat
deriving DecidableEq

/-- Modelled from the spec: `ElectionPartialKeyVerification` from the missing
`key_ceremony` module — the designated guardian's verdict on a backup. -/
structure ElectionPartialKeyVerification where
  owner_id : GuardianId
  designated_id : GuardianId
  verifier_id : GuardianId
  verified : Bool
deriving DecidableEq

/-- Modelled from the spec: `ElectionPartialKeyChallenge` from the missing
`key_ceremony` module — a public disclosure resolving a failed verification. -/
structure ElectionPartialKeyChallenge where
  owner_id : GuardianId
  designated_id : GuardianId
  value : Nat
deriving DecidableEq

/-- Modelled from the spec: `ElectionJointKey` from the missing `key_ceremony`
module — the combined public key. -/
structure ElectionJointKey where
  joint_public_key : Nat
deriving DecidableEq

/-- Modelled from the spec: `PublicKeySet` from the missing `key_ceremony`
module — a guardian's one-shot attendance announcement. -/
structure PublicKeySet where
  owner_id : GuardianId
  sequence_order : Nat
  auxiliary_public_key : Nat
  election_public_key : Nat
  election_public_key_proof : Nat
deriving DecidableEq

/-- Modelled from the spec: `GuardianDataStore` (the KeyedStore) from the
missing `key_ceremony` module — an insertion-ordered mapping supporting
insert-or-overwrite `set` (overwriting keeps the key's position), `get`,
`length`, order-preserving `keys`/`values`/`items`, and `clear`. -/
structure GuardianDataStore (K V : Type) where
  entries : List (K × V)
deriving DecidableEq

namespace GuardianDataStore

variable {K V : Type}

def empty : GuardianDataStore K V := ⟨[]⟩

def set [DecidableEq K] (s : GuardianDataStore K V) (k : K) (v : V) :
    GuardianDataStore K V :=
  if (s.entries.map Prod.fst).contains k then
    ⟨s.entries.map (fun e => if e.1 = k then (k, v) else e)⟩
  else
    ⟨s.entries ++ [(k, v)]⟩

def get [DecidableEq K] (s : GuardianDataStore K V) (k : K) : Option V :=
  (s.entries.find? (fun e => decide (e.1 = k))).map Prod.snd

def length (s : GuardianDataStore K V) : Nat := s.entries.length

def keys (s : GuardianDataStore K V) : List K := s.entries.map Prod.fst

def values (s : GuardianDataStore K V) : List V := s.entries.map Prod.snd

def items (s : GuardianDataStore K V) : List (K × V) := s.entries

def clear (_s : GuardianDataStore K V) : GuardianDataStore K V := ⟨[]⟩

end GuardianDataStore

/-- Modelled from the spec: `combine_election_public_keys` from the missing
`key_ceremony` module — the Combiner, a pure commutative and associative
combination of the stored election public keys into one joint key; modelled
as the product of the abstracted key values. -/
def combine_election_public_keys
    (store : GuardianDataStore GuardianId ElectionPublicKey) : ElectionJointKey :=
  ⟨(store.values.map (fun k => k.key)).foldl (fun a b => a * b) 1⟩

/-- State of `KeyCeremonyMediator`: the ceremony details and the five stores
created empty by `__init__`. -/
structure KeyCeremonyMediator where
  ceremony_details : CeremonyDetails
  auxiliary_public_keys : GuardianDataStore GuardianId AuxiliaryPublicKey
  election_public_keys : GuardianDataStore GuardianId ElectionPublicKey
  election_partial_key_backups : GuardianDataStore GuardianPair ElectionPartialKeyBackup
  election_partial_key_challenges : GuardianDataStore GuardianPair ElectionPartialKeyChallenge
  election_partial_key_verifications : GuardianDataStore GuardianPair ElectionPartialKeyVerification
deriving DecidableEq

namespace KeyCeremonyMediator

/-- `__init__`: all five stores start empty. -/
def init (details : CeremonyDetails) : KeyCeremonyMediator :=
  ⟨details, GuardianDataStore.empty, GuardianDataStore.empty,
    GuardianDataStore.empty, GuardianDataStore.empty, GuardianDataStore.empty⟩

/-- `reset`: replace the ceremony details and clear all five stores. -/
def reset (m : KeyCeremonyMediator) (details : CeremonyDetails) :
    KeyCeremonyMediator :=
  { m with
    ceremony_details := details
    auxiliary_public_keys := m.auxiliary_public_keys.clear
    election_public_keys := m.election_public_keys.clear
    election_partial_key_backups := m.election_partial_key_backups.clear
    election_partial_key_challenges := m.election_partial_key_challenges.clear
    election_partial_key_verifications := m.election_partial_key_verifications.clear }

/-- `receive_auxiliary_public_key`. -/
def receive_auxiliary_public_key (m : KeyCeremonyMediator)
    (public_key : AuxiliaryPublicKey) : KeyCeremonyMediator :=
  { m with auxiliary_public_keys :=
      m.auxiliary_public_keys.set public_key.owner_id public_key }

/-- `receive_election_public_key`. -/
def receive_election_public_key (m : KeyCeremonyMediator)
    (public_key : ElectionPublicKey) : KeyCeremonyMediator :=
  { m with election_public_keys :=
      m.election_public_keys.set public_key.owner_id public_key }

/-- `confirm_presence_of_guardian`: decompose the key set and store both
pieces keyed by the owner. -/
def confirm_presence_of_guardian (m : KeyCeremonyMediator)
    (public_key_set : PublicKeySet) : KeyCeremonyMediator :=
  (m.receive_auxiliary_public_key
      ⟨public_key_set.owner_id, public_key_set.sequence_order,
        public_key_set.auxiliary_public_key⟩).receive_election_public_key
    ⟨public_key_set.owner_id, public_key_set.election_public_key_proof,
      public_key_set.election_public_key⟩

/-- `all_auxiliary_public_keys_available`. -/
def all_auxiliary_public_keys_available (m : KeyCeremonyMediator) : Bool :=
  m.auxiliary_public_keys.length == m.ceremony_details.number_of_guardians

/-- `all_election_public_keys_available`. -/
def all_election_public_keys_available (m : KeyCeremonyMediator) : Bool :=
  m.election_public_keys.length == m.ceremony_details.number_of_guardians

/-- `all_guardians_in_attendance`. -/
def all_guardians_in_attendance (m : KeyCeremonyMediator) : Bool :=
  m.all_auxiliary_public_keys_available && m.all_election_public_keys_available

/-- `share_guardians_in_attendance`: the election-public-key store's keys. -/
def share_guardians_in_attendance (m : KeyCeremonyMediator) : List GuardianId :=
  m.election_public_keys.keys

/-- `receive_election_partial_key_backup`: silent no-op on a self pair. -/
def receive_election_partial_key_backup (m : KeyCeremonyMediator)
    (backup : ElectionPartialKeyBackup) : KeyCeremonyMediator :=
  if backup.owner_id = backup.designated_id then m
  else
    { m with election_partial_key_backups :=
        m.election_partial_key_backups.set ⟨backup.owner_id, backup.designated_id⟩ backup }

/-- `all_election_partial_key_backups_available`. -/
def all_election_partial_key_backups_available (m : KeyCeremonyMediator) : Bool :=
  let required_backups_per_guardian := m.ceremony_details.number_of_guardians - 1
  m.election_partial_key_backups.length ==
    required_backups_per_guardian * m.ceremony_details.number_of_guardians

/-- `share_election_partial_key_backups_to_guardian`: walk the attendance
roster, skip the recipient, collect the stored backups addressed to it. -/
def share_election_partial_key_backups_to_guardian (m : KeyCeremonyMediator)
    (guardian_id : GuardianId) : List ElectionPartialKeyBackup :=
  m.share_guardians_in_attendance.foldl
    (fun backups current_guardian_id =>
      if guardian_id ≠ current_guardian_id then
        match m.election_partial_key_backups.get
            ⟨current_guardian_id, guardian_id⟩ with
        | some backup => backups ++ [backup]
        | none => backups
      else backups)
    []

/-- `receive_election_partial_key_verification`: silent no-op on a self pair. -/
def receive_election_partial_key_verification (m : KeyCeremonyMediator)
    (verification : ElectionPartialKeyVerification) : KeyCeremonyMediator :=
  if verification.owner_id = verification.designated_id then m
  else
    { m with election_partial_key_verifications :=
        m.election_partial_key_verifications.set ⟨verification.owner_id, verification.designated_id⟩ verification }

/-- `all_election_partial_key_verifications_received`. -/
def all_election_partial_key_verifications_received (m : KeyCeremonyMediator) : Bool :=
  let required_verifications_per_guardian :=
    m.ceremony_details.number_of_guardians - 1
  m.election_partial_key_verifications.length ==
    required_verifications_per_guardian * m.ceremony_details.number_of_guardians

/-- `all_election_partial_key_backups_verified`: all received and the loop
over the stored verifications finds no failed one. -/
def all_election_partial_key_backups_verified (m : KeyCeremonyMediator) : Bool :=
  if !m.all_election_partial_key_verifications_received then false
  else m.election_partial_key_verifications.values.all (fun v => v.verified)

/-- `share_failed_partial_key_verifications`: the loop collecting pairs whose
stored verification failed. -/
def share_failed_partial_key_verifications (m : KeyCeremonyMediator) :
    List GuardianPair :=
  m.election_partial_key_verifications.items.foldl
    (fun failed_verifications pv =>
      if !pv.2.verified then failed_verifications ++ [pv.1]
      else failed_verifications)
    []

/-- Embedding of the Python built-in `list.remove`: removes the first
occurrence, raises `ValueError` when absent. -/
def list_remove {α : Type} [DecidableEq α] : List α → α → Except String (List α)
  | [], _ => Except.error "ValueError"
  | x :: xs, a =>
    if x = a then Except.ok xs
    else (list_remove xs a).map (fun r => x :: r)

/-- `share_missing_election_partial_key_challenges`: remove every challenged
pair from the failed list with `list.remove`. -/
def share_missing_election_partial_key_challenges (m : KeyCeremonyMediator) :
    Except String (List GuardianPair) :=
  m.election_partial_key_challenges.keys.foldlM
    (fun failed_verifications pair => list_remove failed_verifications pair)
    m.share_failed_partial_key_verifications

/-- `receive_election_partial_key_challenge`: stored with no self-pair guard. -/
def receive_election_partial_key_challenge (m : KeyCeremonyMediator)
    (challenge : ElectionPartialKeyChallenge) : KeyCeremonyMediator :=
  { m with election_partial_key_challenges :=
      m.election_partial_key_challenges.set ⟨challenge.owner_id, challenge.designated_id⟩ challenge }

/-- `share_open_election_partial_key_challenges`. -/
def share_open_election_partial_key_challenges (m : KeyCeremonyMediator) :
    List ElectionPartialKeyChallenge :=
  m.election_partial_key_challenges.values

/-- `publish_joint_key`: absent unless all election public keys are available
and all backups verified; otherwise the combiner over the key store. -/
def publish_joint_key (m : KeyCeremonyMediator) : Option ElectionJointKey :=
  if !m.all_election_public_keys_available then none
  else if !m.all_election_partial_key_backups_verified then none
  else some (combine_election_public_keys m.election_public_keys)

/-- A call to `publish_joint_key` as (result, post-state): the method body
contains no assignment, so the post-state is the receiver itself. -/
def publish_joint_key_call (m : KeyCeremonyMediator) :
    Option ElectionJointKey × KeyCeremonyMediator :=
  (m.publish_joint_key, m)

end KeyCeremonyMediator

/-- One mutating call on the mediator, for quantifying over call sequences. -/
inductive MediatorOp where
  | reset (details : CeremonyDetails)
  | confirm_presence_of_guardian (s : PublicKeySet)
  | receive_auxiliary_public_key (k : AuxiliaryPublicKey)
  | receive_election_public_key (k : ElectionPublicKey)
  | receive_election_partial_key_backup (b : ElectionPartialKeyBackup)
  | receive_election_partial_key_verification (v : ElectionPartialKeyVerification)
  | receive_election_partial_key_challenge (c : ElectionPartialKeyChallenge)

/-- Apply one mutating call to a mediator state. -/
def applyOp (m : KeyCeremonyMediator) : MediatorOp → KeyCeremonyMediator
  | MediatorOp.reset details => m.reset details
  | MediatorOp.confirm_presence_of_guardian s => m.confirm_presence_of_guardian s
  | MediatorOp.receive_auxiliary_public_key k => m.receive_auxiliary_public_key k
  | MediatorOp.receive_election_public_key k => m.receive_election_public_key k
  | MediatorOp.receive_election_partial_key_backup b =>
      m.receive_election_partial_key_backup b
  | MediatorOp.receive_election_partial_key_verification v =>
      m.receive_election_partial_key_verification v
  | MediatorOp.receive_election_partial_key_challenge c =>
      m.receive_election_partial_key_challenge c

/-- Run a sequence of mutating calls. -/
def runOps (m : KeyCeremonyMediator) (ops : List MediatorOp) : KeyCeremonyMediator :=
  ops.foldl applyOp m

/-- Well-formedness of a pair-keyed store: every entry's key has distinct
owner and designated ids, and the key equals the ids carried by the value. -/
def PairStoreWF {V : Type} (owner desig : V → GuardianId)
    (s : GuardianDataStore GuardianPair V) : Prop :=
  ∀ e ∈ s.entries,
    e.1.owner_id ≠ e.1.designated_id ∧
    e.1.owner_id = owner e.2 ∧ e.1.designated_id = desig e.2

/-- The mediator invariant over the backup and verification stores. -/
def MediatorInv (m : KeyCeremonyMediator) : Prop :=
  PairStoreWF (fun b => b.owner_id) (fun b => b.designated_id)
      m.election_partial_key_backups ∧
  PairStoreWF (fun v => v.owner_id) (fun v => v.designated_id)
      m.election_partial_key_verifications

/-- Arithmetic shape shared by the two completion predicates: comparing a
store length against `(n - 1) * n` is comparing it against `n * (n - 1)`. -/
theorem count_complete_iff (len n : Nat) :
    ((len == (n - 1) * n) = true ↔ len = n * (n - 1)) ∧
    (len < n * (n - 1) → (len == (n - 1) * n) = false) := by
  rw [Nat.mul_comm (n - 1)]
  exact ⟨by simp, fun h => by simpa using Nat.ne_of_lt h⟩

/-- C1: `publish_joint_key` returns the combiner applied to the
election-public-key store exactly when both readiness predicates hold, and
`none` whenever either is false. -/
theorem publish_joint_key_iff_ready (m : KeyCeremonyMediator) :
    m.publish_joint_key =
      if m.all_election_public_keys_available &&
          m.all_election_partial_key_backups_verified then
        some (combine_election_public_keys m.election_public_keys)
      else none := by
  unfold KeyCeremonyMediator.publish_joint_key
  cases h1 : m.all_election_public_keys_available <;>
    cases h2 : m.all_election_partial_key_backups_verified <;> simp [h1, h2]

/-- C4: `all_election_partial_key_backups_verified` holds exactly when all
verifications are received and every stored verification is verified. -/
theorem all_backups_verified_characterisation (m : KeyCeremonyMediator) :
    m.all_election_partial_key_backups_verified = true ↔
      m.all_election_partial_key_verifications_received = true ∧
      ∀ v ∈ m.election_partial_key_verifications.values, v.verified = true := by
  unfold KeyCeremonyMediator.all_election_partial_key_backups_verified
  cases h : m.all_election_partial_key_verifications_received <;>
    simp [h, List.all_eq_true]

/-- C6: the two completion predicates hold exactly when the corresponding
store length is `n * (n - 1)`, and any lesser count falsifies them. -/
theorem completion_counts_iff (m : KeyCeremonyMediator) :
    (m.all_election_partial_key_backups_available = true ↔
      m.election_partial_key_backups.length =
        m.ceremony_details.number_of_guardians *
          (m.ceremony_details.number_of_guardians - 1)) ∧
    (m.all_election_partial_key_verifications_received = true ↔
      m.election_partial_key_verifications.length =
        m.ceremony_details.number_of_guardians *
          (m.ceremony_details.number_of_guardians - 1)) ∧
    (m.election_partial_key_backups.length <
        m.ceremony_details.number_of_guardians *
          (m.ceremony_details.number_of_guardians - 1) →
      m.all_election_partial_key_backups_available = false) ∧
    (m.election_partial_key_verifications.length <
        m.ceremony_details.number_of_guardians *
          (m.ceremony_details.number_of_guardians - 1) →
      m.all_election_partial_key_verifications_received = false) :=
  ⟨(count_complete_iff _ _).1, (count_complete_iff _ _).1,
    (count_complete_iff _ _).2, (count_complete_iff _ _).2⟩

/-- C6 witness: the characterisation evaluated on a concrete mediator with
two guardians and empty stores. -/
theorem completion_counts_iff_witness :
    ((KeyCeremonyMediator.init ⟨2, 2⟩).all_election_partial_key_backups_available = true ↔
      (KeyCeremonyMediator.init ⟨2, 2⟩).election_partial_key_backups.length = 2 * (2 - 1)) ∧
    ((KeyCeremonyMediator.init ⟨2, 2⟩).all_election_partial_key_verifications_received = true ↔
      (KeyCeremonyMediator.init ⟨2, 2⟩).election_partial_key_verifications.length = 2 * (2 - 1)) ∧
    ((KeyCeremonyMediator.init ⟨2, 2⟩).election_partial_key_backups.length < 2 * (2 - 1) →
      (KeyCeremonyMediator.init ⟨2, 2⟩).all_election_partial_key_backups_available = false) ∧
    ((KeyCeremonyMediator.init ⟨2, 2⟩).election_partial_key_verifications.length < 2 * (2 - 1) →
      (KeyCeremonyMediator.init ⟨2, 2⟩).all_election_partial_key_verifications_received = false) :=
  completion_counts_iff (KeyCeremonyMediator.init ⟨2, 2⟩)

/-- C8: `reset` installs the new ceremony details and drives all five
stores to length 0, from any prior state. -/
theorem reset_clears_everything (m : KeyCeremonyMediator)
    (details : CeremonyDetails) :
    (m.reset details).ceremony_details = details ∧
    (m.reset details).auxiliary_public_keys.length = 0 ∧
    (m.reset details).election_public_keys.length = 0 ∧
    (m.reset details).election_partial_key_backups.length = 0 ∧
    (m.reset details).election_partial_key_verifications.length = 0 ∧
    (m.reset details).election_partial_key_challenges.length = 0 :=
  ⟨rfl, rfl, rfl, rfl, rfl, rfl⟩

/-- C9: a `publish_joint_key` call leaves the mediator state (details and
all five stores) unchanged, so repeated calls return equal results. -/
theorem publish_joint_key_no_mutation (m : KeyCeremonyMediator) :
    (m.publish_joint_key_call).2 = m ∧
    (m.publish_joint_key_call).2.ceremony_details = m.ceremony_details ∧
    (m.publish_joint_key_call).2.auxiliary_public_keys = m.auxiliary_public_keys ∧
    (m.publish_joint_key_call).2.election_public_keys = m.election_public_keys ∧
    (m.publish_joint_key_call).2.election_partial_key_backups = m.election_partial_key_backups ∧
    (m.publish_joint_key_call).2.election_partial_key_verifications = m.election_partial_key_verifications ∧
    (m.publish_joint_key_call).2.election_partial_key_challenges = m.election_partial_key_challenges ∧
    ((m.publish_joint_key_call).2.publish_joint_key_call).1 = (m.publish_joint_key_call).1 :=
  ⟨rfl, rfl, rfl, rfl, rfl, rfl, rfl, rfl⟩

/-- Membership after an insert-or-overwrite: every entry of `s.set k v` is
either an old entry or the pair `(k, v)`. -/
theorem GuardianDataStore.mem_of_mem_set {K V : Type} [DecidableEq K]
    (s : GuardianDataStore K V) (k : K) (v : V) (e : K × V)
    (he : e ∈ (s.set k v).entries) : e ∈ s.entries ∨ e = (k, v) := by
  unfold GuardianDataStore.set at he
  by_cases hc : (s.entries.map Prod.fst).contains k
  · rw [if_pos hc] at he
    replace he : e ∈ s.entries.map (fun x => if x.1 = k then (k, v) else x) := he
    obtain ⟨a, ha, hfa⟩ := List.mem_map.1 he
    by_cases hk : a.1 = k
    · right; rw [← hfa, if_pos hk]
    · left; rw [← hfa, if_neg hk]; exact ha
  · rw [if_neg hc] at he
    replace he : e ∈ s.entries ++ [(k, v)] := he
    rcases List.mem_append.1 he with h | h
    · left; exact h
    · right; simpa using h

/-- In a well-formed pair store no entry is keyed by a self pair. -/
theorem PairStoreWF.get_self_eq_none {V : Type} {owner desig : V → GuardianId}
    {s : GuardianDataStore GuardianPair V}
    (h : PairStoreWF owner desig s) (a : GuardianId) :
    s.get ⟨a, a⟩ = none := by
  have hfind : s.entries.find? (fun e => decide (e.1 = ⟨a, a⟩)) = none := by
    rw [List.find?_eq_none]
    intro e he
    simp only [decide_eq_true_eq]
    intro heq
    exact (h e he).1 (by rw [heq])
  simp [GuardianDataStore.get, hfind]

/-- A freshly constructed mediator satisfies the store invariant. -/
theorem mediatorInv_init (details : CeremonyDetails) :
    MediatorInv (KeyCeremonyMediator.init details) :=
  ⟨fun e he => absurd he (List.not_mem_nil e),
    fun e he => absurd he (List.not_mem_nil e)⟩

/-- Every single mutating call preserves the store invariant. -/
theorem applyOp_preserves_inv (m : KeyCeremonyMediator) (op : MediatorOp)
    (h : MediatorInv m) : MediatorInv (applyOp m op) := by
  cases op with
  | reset details =>
    exact ⟨fun e he => absurd he (List.not_mem_nil e),
      fun e he => absurd he (List.not_mem_nil e)⟩
  | confirm_presence_of_guardian s => exact h
  | receive_auxiliary_public_key k => exact h
  | receive_election_public_key k => exact h
  | receive_election_partial_key_challenge c => exact h
  | receive_election_partial_key_backup b =>
    show MediatorInv (m.receive_election_partial_key_backup b)
    unfold KeyCeremonyMediator.receive_election_partial_key_backup
    by_cases hb : b.owner_id = b.designated_id
    · rw [if_pos hb]; exact h
    · rw [if_neg hb]
      refine ⟨fun e he => ?_, h.2⟩
      rcases GuardianDataStore.mem_of_mem_set _ _ _ e he with hmem | heq
      · exact h.1 e hmem
      · subst heq; exact ⟨hb, rfl, rfl⟩
  | receive_election_partial_key_verification v =>
    show MediatorInv (m.receive_election_partial_key_verification v)
    unfold KeyCeremonyMediator.receive_election_partial_key_verification
    by_cases hv : v.owner_id = v.designated_id
    · rw [if_pos hv]; exact h
    · rw [if_neg hv]
      refine ⟨h.1, fun e he => ?_⟩
      rcases GuardianDataStore.mem_of_mem_set _ _ _ e he with hmem | heq
      · exact h.2 e hmem
      · subst heq; exact ⟨hv, rfl, rfl⟩

/-- Any sequence of mutating calls preserves the store invariant. -/
theorem runOps_preserves_inv (ops : List MediatorOp) (m : KeyCeremonyMediator)
    (h : MediatorInv m) : MediatorInv (runOps m ops) := by
  induction ops generalizing m with
  | nil => exact h
  | cons op ops ih => exact ih _ (applyOp_preserves_inv m op h)

/-- C10: from a freshly constructed mediator, every sequence of mediator
calls keeps both pair-keyed stores keyed by non-self pairs whose components
equal the ids carried inside the stored value. -/
theorem mediator_invariant_reachable (details : CeremonyDetails)
    (ops : List MediatorOp) :
    MediatorInv (runOps (KeyCeremonyMediator.init details) ops) :=
  runOps_preserves_inv ops _ (mediatorInv_init details)

/-- C5: a self-addressed backup or verification is a complete no-op — the
state is unchanged, the store length is unchanged, and (in any state
satisfying the store invariant) no self-keyed entry exists afterwards. -/
theorem receive_self_pair_noop (m : KeyCeremonyMediator)
    (b : ElectionPartialKeyBackup) (v : ElectionPartialKeyVerification)
    (hb : b.owner_id = b.designated_id) (hv : v.owner_id = v.designated_id)
    (hinv : MediatorInv m) :
    m.receive_election_partial_key_backup b = m ∧
    m.receive_election_partial_key_verification v = m ∧
    (m.receive_election_partial_key_backup b).election_partial_key_backups.length =
      m.election_partial_key_backups.length ∧
    (m.receive_election_partial_key_verification v).election_partial_key_verifications.length =
      m.election_partial_key_verifications.length ∧
    (m.receive_election_partial_key_backup b).election_partial_key_backups.get
      ⟨b.owner_id, b.owner_id⟩ = none ∧
    (m.receive_election_partial_key_verification v).election_partial_key_verifications.get
      ⟨v.owner_id, v.owner_id⟩ = none := by
  have hb1 : m.receive_election_partial_key_backup b = m := by
    unfold KeyCeremonyMediator.receive_election_partial_key_backup
    rw [if_pos hb]
  have hv1 : m.receive_election_partial_key_verification v = m := by
    unfold KeyCeremonyMediator.receive_election_partial_key_verification
    rw [if_pos hv]
  refine ⟨hb1, hv1, by rw [hb1], by rw [hv1], ?_, ?_⟩
  · rw [hb1]; exact hinv.1.get_self_eq_none b.owner_id
  · rw [hv1]; exact hinv.2.get_self_eq_none v.owner_id

/-- C5 witness: the no-op theorem applied to a fresh two-guardian mediator
and concrete self-addressed records. -/
theorem receive_self_pair_noop_witness :
    (KeyCeremonyMediator.init ⟨2, 2⟩).receive_election_partial_key_backup ⟨"A", "A", 0⟩ =
      KeyCeremonyMediator.init ⟨2, 2⟩ ∧
    (KeyCeremonyMediator.init ⟨2, 2⟩).receive_election_partial_key_verification
        ⟨"B", "B", "A", false⟩ =
      KeyCeremonyMediator.init ⟨2, 2⟩ ∧
    ((KeyCeremonyMediator.init ⟨2, 2⟩).receive_election_partial_key_backup
        ⟨"A", "A", 0⟩).election_partial_key_backups.length =
      (KeyCeremonyMediator.init ⟨2, 2⟩).election_partial_key_backups.length ∧
    ((KeyCeremonyMediator.init ⟨2, 2⟩).receive_election_partial_key_verification
        ⟨"B", "B", "A", false⟩).election_partial_key_verifications.length =
      (KeyCeremonyMediator.init ⟨2, 2⟩).election_partial_key_verifications.length ∧
    ((KeyCeremonyMediator.init ⟨2, 2⟩).receive_election_partial_key_backup
        ⟨"A", "A", 0⟩).election_partial_key_backups.get ⟨"A", "A"⟩ = none ∧
    ((KeyCeremonyMediator.init ⟨2, 2⟩).receive_election_partial_key_verification
        ⟨"B", "B", "A", false⟩).election_partial_key_verifications.get ⟨"B", "B"⟩ = none :=
  receive_self_pair_noop (KeyCeremonyMediator.init ⟨2, 2⟩) ⟨"A", "A", 0⟩
    ⟨"B", "B", "A", false⟩ rfl rfl (mediatorInv_init ⟨2, 2⟩)

/-- Mediator state reached by submitting one election public key directly:
the auxiliary store stays empty, so attendance is incomplete. -/
def attendanceGapMediator : KeyCeremonyMediator :=
  runOps (KeyCeremonyMediator.init ⟨1, 1⟩)
    [MediatorOp.receive_election_public_key ⟨"A", 0, 5⟩]

/-- C2 counterexample: a reachable state in which attendance is incomplete
(the auxiliary store is empty) yet `publish_joint_key` returns a key —
attendance completion is not a precondition the code enforces. -/
theorem publish_despite_incomplete_attendance :
    attendanceGapMediator.all_guardians_in_attendance = false ∧
    attendanceGapMediator.publish_joint_key = some ⟨5⟩ := by
  constructor <;> rfl

/-- C2 amended: `publish_joint_key` returns absent whenever the election
public keys are not all available; only that half of attendance is
consulted. -/
theorem publish_joint_key_none_without_election_keys (m : KeyCeremonyMediator)
    (h : m.all_election_public_keys_available = false) :
    m.publish_joint_key = none := by
  unfold KeyCeremonyMediator.publish_joint_key
  simp [h]

/-- C2 amended witness: a fresh one-guardian mediator has no election public
key and publishes nothing. -/
theorem publish_joint_key_none_without_election_keys_witness :
    (KeyCeremonyMediator.init ⟨1, 1⟩).all_election_public_keys_available = false ∧
    (KeyCeremonyMediator.init ⟨1, 1⟩).publish_joint_key = none :=
  ⟨rfl, publish_joint_key_none_without_election_keys _ rfl⟩

/-- The collecting loop of `share_election_partial_key_backups_to_guardian`:
the guarded backup-collecting fold is filter-then-filterMap. -/
theorem foldl_guarded_collect (g : GuardianId)
    (lookup : GuardianId → Option ElectionPartialKeyBackup) :
    ∀ (roster : List GuardianId) (acc : List ElectionPartialKeyBackup),
      roster.foldl
        (fun backups current_guardian_id =>
          if g ≠ current_guardian_id then
            match lookup current_guardian_id with
            | some backup => backups ++ [backup]
            | none => backups
          else backups)
        acc =
      acc ++ (roster.filter (fun c => decide (g ≠ c))).filterMap lookup
  | [], acc => by simp
  | c :: cs, acc => by
    simp only [List.foldl_cons, List.filter_cons]
    by_cases hg : g ≠ c
    · rw [if_pos hg]
      have hdec : decide (g ≠ c) = true := decide_eq_true hg
      rw [hdec, if_pos rfl, List.filterMap_cons]
      cases hlc : lookup c with
      | none =>
        simp only [hlc]
        exact foldl_guarded_collect g lookup cs acc
      | some b =>
        simp only [hlc]
        rw [foldl_guarded_collect g lookup cs (acc ++ [b])]
        simp
    · rw [if_neg hg]
      have hdec : decide (g ≠ c) = false := decide_eq_false hg
      rw [hdec]
      simp only [Bool.false_eq_true, if_false]
      exact foldl_guarded_collect g lookup cs acc

/-- C7: sharing backups to guardian `g` yields, in attendance-roster order,
the stored backups keyed by (other guardian, g) for each roster member
other than `g`, omitting absent ones; with none stored it is empty. -/
theorem share_backups_to_guardian_spec (m : KeyCeremonyMediator)
    (g : GuardianId) :
    m.share_election_partial_key_backups_to_guardian g =
      (m.share_guardians_in_attendance.filter (fun c => decide (g ≠ c))).filterMap
        (fun c => m.election_partial_key_backups.get ⟨c, g⟩) ∧
    ((∀ c : GuardianId, m.election_partial_key_backups.get ⟨c, g⟩ = none) →
      m.share_election_partial_key_backups_to_guardian g = []) := by
  have hmain : m.share_election_partial_key_backups_to_guardian g =
      (m.share_guardians_in_attendance.filter (fun c => decide (g ≠ c))).filterMap
        (fun c => m.election_partial_key_backups.get ⟨c, g⟩) := by
    unfold KeyCeremonyMediator.share_election_partial_key_backups_to_guardian
    have h := foldl_guarded_collect g
      (fun c => m.election_partial_key_backups.get ⟨c, g⟩)
      m.share_guardians_in_attendance []
    rw [List.nil_append] at h
    exact h
  refine ⟨hmain, fun hnone => ?_⟩
  rw [hmain]
  simp [List.filterMap_eq_nil_iff, hnone]

/-- C7 witness: the characterisation applied to a fresh mediator and a
concrete guardian id, where the shared list is empty. -/
theorem share_backups_to_guardian_spec_witness :
    (KeyCeremonyMediator.init ⟨2, 2⟩).share_election_partial_key_backups_to_guardian "A" =
      ((KeyCeremonyMediator.init ⟨2, 2⟩).share_guardians_in_attendance.filter
          (fun c => decide ("A" ≠ c))).filterMap
        (fun c => (KeyCeremonyMediator.init ⟨2, 2⟩).election_partial_key_backups.get ⟨c, "A"⟩) ∧
    ((∀ c : GuardianId,
        (KeyCeremonyMediator.init ⟨2, 2⟩).election_partial_key_backups.get ⟨c, "A"⟩ = none) →
      (KeyCeremonyMediator.init ⟨2, 2⟩).share_election_partial_key_backups_to_guardian "A" = []) :=
  share_backups_to_guardian_spec (KeyCeremonyMediator.init ⟨2, 2⟩) "A"

/-- Python `list.remove` on a present element removes its first occurrence. -/
theorem list_remove_of_mem {α : Type} [DecidableEq α] {a : α} :
    ∀ {l : List α}, a ∈ l →
      KeyCeremonyMediator.list_remove l a = Except.ok (l.erase a)
  | [], h => absurd h (List.not_mem_nil a)
  | x :: xs, h => by
    unfold KeyCeremonyMediator.list_remove
    by_cases hx : x = a
    · rw [if_pos hx]
      subst hx
      rw [List.erase_cons_head]
    · rw [if_neg hx]
      have ha : a ∈ xs := by
        rcases List.mem_cons.1 h with h1 | h1
        · exact absurd h1.symm hx
        · exact h1
      rw [list_remove_of_mem ha, List.erase_cons_tail]
      · rfl
      · simpa using hx

/-- Folding `list.remove` over duplicate-free removals that all occur in the
base list computes the list difference and never raises. -/
theorem foldlM_remove_eq_diff {α : Type} [DecidableEq α] :
    ∀ (removals l : List α), removals.Nodup → (∀ a ∈ removals, a ∈ l) →
      List.foldlM (fun acc a => KeyCeremonyMediator.list_remove acc a) l removals =
        Except.ok (l.diff removals)
  | [], l, _, _ => by rw [List.foldlM_nil, List.diff_nil]; rfl
  | a :: as, l, hnd, hsub => by
    rw [List.foldlM_cons, list_remove_of_mem (hsub a (List.mem_cons_self a as)),
      List.diff_cons]
    have hna := (List.nodup_cons.1 hnd).1
    have hsub2 : ∀ b ∈ as, b ∈ l.erase a := fun b hb =>
      (List.mem_erase_of_ne (fun hba => hna (by rw [← hba]; exact hb))).2
        (hsub b (List.mem_cons_of_mem a hb))
    simpa using foldlM_remove_eq_diff as (l.erase a) (List.nodup_cons.1 hnd).2 hsub2

/-- C3 amended: when every challenged pair occurs among the failed pairs
(and the challenge keys are duplicate-free, as store keys are),
`share_missing_election_partial_key_challenges` returns the set difference
failed − challenged; a challenge for a pair outside the failed set instead
makes the call raise `ValueError`. -/
theorem missing_challenges_eq_diff (m : KeyCeremonyMediator)
    (hnd : m.election_partial_key_challenges.keys.Nodup)
    (hsub : ∀ p ∈ m.election_partial_key_challenges.keys,
      p ∈ m.share_failed_partial_key_verifications) :
    m.share_missing_election_partial_key_challenges =
      Except.ok (m.share_failed_partial_key_verifications.diff
        m.election_partial_key_challenges.keys) :=
  foldlM_remove_eq_diff _ _ hnd hsub

/-- Mediator with one failed verification and its matching challenge. -/
def challengedMediator : KeyCeremonyMediator :=
  runOps (KeyCeremonyMediator.init ⟨2, 2⟩)
    [MediatorOp.receive_election_partial_key_verification ⟨"A", "B", "B", false⟩,
     MediatorOp.receive_election_partial_key_challenge ⟨"A", "B", 7⟩]

/-- C3 amended witness: the set-difference theorem applied to a concrete
state with one failed verification and its matching challenge. -/
theorem missing_challenges_eq_diff_witness :
    challengedMediator.share_missing_election_partial_key_challenges =
      Except.ok (challengedMediator.share_failed_partial_key_verifications.diff
        challengedMediator.election_partial_key_challenges.keys) :=
  missing_challenges_eq_diff challengedMediator (by decide) (by decide)

/-- Mediator holding a challenge for a pair with no failed verification. -/
def strayChallengeMediator : KeyCeremonyMediator :=
  runOps (KeyCeremonyMediator.init ⟨2, 2⟩)
    [MediatorOp.receive_election_partial_key_challenge ⟨"A", "B", 7⟩]

/-- C3 counterexample: with a stored challenge whose pair is not among the
failed verifications, `share_missing_election_partial_key_challenges` raises
`ValueError` (`list.remove` on an absent element) instead of returning a
defined result. -/
theorem missing_challenges_raises :
    strayChallengeMediator.share_missing_election_partial_key_challenges =
      Except.error "ValueError" := rfl

/-- C4 witness: the characterisation evaluated on a concrete fresh
two-guardian mediator. -/
theorem all_backups_verified_characterisation_witness :
    (KeyCeremonyMediator.init ⟨2, 2⟩).all_election_partial_key_backups_verified = true ↔
      (KeyCeremonyMediator.init ⟨2, 2⟩).all_election_partial_key_verifications_received = true ∧
      ∀ v ∈ (KeyCeremonyMediator.init ⟨2, 2⟩).election_partial_key_verifications.values,
        v.verified = true :=
  all_backups_verified_characterisation (KeyCeremonyMediator.init ⟨2, 2⟩)
